import Mathlib

/-!
# Verification of `django-layar` (`layar/__init__.py`)

A shallow embedding of the single source module of the repository:
the `POI` entity with its `to_dict` encoding, and the `LayarView.__call__`
request pipeline (parameter parsing, hash verification, layer dispatch,
capping + pagination, POI conversion, radius echo, error capture).

Modelling conventions:
* Python runtime values that the code treats dynamically (optional fields,
  `None`, numbers, strings, lists, dicts) are modelled by the inductive
  `PyVal`.  Python `float` and `decimal.Decimal` numbers are both modelled
  as exact rationals, represented by the unreduced fraction type `PyFloat`
  (numerator/denominator, denominator always positive here) so that all
  arithmetic is structurally computable; `int(x)` on such a number
  truncates toward zero, which is `Int.tdiv` of numerator by denominator.
* A Python dict is modelled as an association list `Dict`; `dictSet`
  replaces an existing key in place or appends a fresh one, `dictGet`
  looks up, `dictDel` removes — key membership and values are what the
  claims are about, never the (unordered in CPython 2) key order.
* Exceptions: `LayarException(code, message)` is the only exception the
  pipeline catches; `ValueError` (failed `float()`/`int()` conversion),
  `DeprecationWarning` (dict-typed `actions`) propagate out of the view
  uncaught.  `KeyError` on a missing required GET parameter is caught by
  the outer handler and turned into an `HttpResponseBadRequest`.
* The SHA-1 hex digest used for hash verification is an opaque function
  carried by the view (`sha1hex`), since the digest algorithm itself is a
  library external to the repository.
* Querysets/result collections are modelled as Lean lists; slicing
  `qs[a:b]` uses Python sequence-slice semantics (`pySlice`).
-/

namespace Layar

/-- An exact rational standing for a Python `float` or
`decimal.Decimal`, kept as an unreduced fraction (the denominator is a
positive power of ten for every value this module builds) so that all
arithmetic reduces structurally. -/
structure PyFloat where
  num : Int
  den : Nat
  deriving DecidableEq

/-- A dynamic Python value, as far as this module manipulates them. -/
inductive PyVal where
  | none
  | bool (b : Bool)
  | int (n : Int)
  | float (q : PyFloat)
  | str (s : String)
  | list (xs : List PyVal)
  | dict (kvs : List (String × PyVal))

/-- Python truthiness (`bool(v)`): `None`, `False`, zero, the empty string,
list and dict are falsy, everything else truthy. -/
def PyVal.truthy : PyVal → Bool
  | .none => false
  | .bool b => b
  | .int n => n != 0
  | .float q => q.num != 0
  | .str s => s != ""
  | .list xs => !xs.isEmpty
  | .dict kvs => !kvs.isEmpty

/-- Python `str()` restricted to the value shapes a POI `id` can take. -/
def pyStr : PyVal → String
  | .str s => s
  | .int n => toString n
  | .none => "None"
  | .bool b => if b then "True" else "False"
  | _ => ""

/-- A Python dict as an association list. -/
abbrev Dict := List (String × PyVal)

/-- `d[k] = v`: replace the binding of `k` in place if present, else append. -/
def dictSet (d : Dict) (k : String) (v : PyVal) : Dict :=
  match d with
  | [] => [(k, v)]
  | (k', v') :: t => if k' = k then (k, v) :: t else (k', v') :: dictSet t k v

/-- `d.get(k)`. -/
def dictGet (d : Dict) (k : String) : Option PyVal :=
  match d with
  | [] => Option.none
  | (k', v') :: t => if k' = k then some v' else dictGet t k

/-- `del d[k]` (no-op when absent; the source only deletes present keys). -/
def dictDel (d : Dict) (k : String) : Dict :=
  match d with
  | [] => []
  | (k', v') :: t => if k' = k then t else (k', v') :: dictDel t k

/-- Python `int()` truncation toward zero of an exact rational. -/
def pyTrunc (q : PyFloat) : Int := Int.tdiv q.num q.den

/-- Conversion applied by `POI.to_dict` to a `float`/`Decimal` coordinate:
`int(x * 1000000)`. -/
def fixedPoint (q : PyFloat) : Int := pyTrunc ⟨q.num * 1000000, q.den⟩

/-- Exceptions that can escape or traverse the pipeline. -/
inductive PyExc where
  | valueError (msg : String)
  | deprecationWarning (msg : String)
  deriving DecidableEq

/-- The `POI` object: one field per attribute set in `POI.__init__`,
holding the dynamic value stored on the instance. -/
structure POI where
  id : PyVal
  lat : PyVal
  lon : PyVal
  title : PyVal
  imageURL : PyVal
  line2 : PyVal
  line3 : PyVal
  line4 : PyVal
  type : PyVal
  attribution : PyVal
  dimension : PyVal
  alt : PyVal
  transform : PyVal
  object : PyVal
  relativeAlt : PyVal
  actions : PyVal

/-- `POI.__init__`: keyword defaults as in the source; `id` is passed
through `str()`. -/
def mkPOI (id lat lon title : PyVal)
    (actions : PyVal := .none) (image_url : PyVal := .none)
    (line2 : PyVal := .none) (line3 : PyVal := .none)
    (line4 : PyVal := .none) (type : PyVal := .int 0)
    (attribution : PyVal := .none) (dimension : PyVal := .int 1)
    (alt : PyVal := .none) (transform : PyVal := .none)
    (object_detail : PyVal := .none) (relative_alt : PyVal := .none) :
    POI :=
  { id := .str (pyStr id), lat := lat, lon := lon, title := title,
    imageURL := image_url, line2 := line2, line3 := line3, line4 := line4,
    type := type, attribution := attribution, dimension := dimension,
    alt := alt, transform := transform, object := object_detail,
    relativeAlt := relative_alt, actions := actions }

/-- `dict(self.__dict__)` of a POI, bindings in `__init__` assignment
order. -/
def POI.attrDict (p : POI) : Dict :=
  [("id", p.id), ("lat", p.lat), ("lon", p.lon), ("title", p.title),
   ("imageURL", p.imageURL), ("line2", p.line2), ("line3", p.line3),
   ("line4", p.line4), ("type", p.type), ("attribution", p.attribution),
   ("dimension", p.dimension), ("alt", p.alt), ("transform", p.transform),
   ("object", p.object), ("relativeAlt", p.relativeAlt),
   ("actions", p.actions)]

/-- The `remove_if_none` loop of `POI.to_dict`: delete each of `alt`,
`transform`, `object`, `relativeAlt` from the attribute dict when its
value is falsy. -/
def POI.encDrop (p : POI) : Dict :=
  let d := p.attrDict
  let d := if !p.alt.truthy then dictDel d "alt" else d
  let d := if !p.transform.truthy then dictDel d "transform" else d
  let d := if !p.object.truthy then dictDel d "object" else d
  if !p.relativeAlt.truthy then dictDel d "relativeAlt" else d

/-- The lat/long conversion step of `POI.to_dict`: fixed-point convert
`lat`/`lon` when the stored value is a `float`/`Decimal`. -/
def POI.encCoords (p : POI) : Dict :=
  let d := p.encDrop
  let d := match p.lat with
    | .float q => dictSet d "lat" (.int (fixedPoint q))
    | _ => d
  match p.lon with
  | .float q => dictSet d "lon" (.int (fixedPoint q))
  | _ => d

/-- `POI.to_dict`: copy `__dict__`; delete each of `alt`, `transform`,
`object`, `relativeAlt` when falsy; fixed-point convert `lat`/`lon` when
they are `float`/`Decimal`; then normalize `actions` — a dict raises
`DeprecationWarning`, a list is passed through, anything else becomes
`[]`. -/
def POI.to_dict (p : POI) : Except PyExc Dict :=
  let d := p.encCoords
  match p.actions with
  | .dict _ => .error (.deprecationWarning
      "passing a dictionary for actions is deprecated - order will be lost")
  | .list _ => .ok d
  | _ => .ok (dictSet d "actions" (.list []))

/-! ## Parameter parsing (`request.GET` extraction at the top of
`LayarView.__call__`) -/

/-- The raw GET parameter map. -/
abbrev RawGet := List (String × String)

/-- `request.GET.get(k)`. -/
def rawGet (g : RawGet) (k : String) : Option String :=
  match g with
  | [] => Option.none
  | (k', v) :: t => if k' = k then some v else rawGet t k

/-- Value of a nonempty all-digit character run. -/
def digitsVal (cs : List Char) : Option Nat :=
  if cs.isEmpty then Option.none
  else if cs.all Char.isDigit then
    some (cs.foldl (fun a c => a * 10 + (c.toNat - 48)) 0)
  else Option.none

/-- Python `int(s)` on a string: optional sign followed by digits;
anything else raises `ValueError` (here: `none`). -/
def pyInt (s : String) : Option Int :=
  match s.toList with
  | '-' :: t => (digitsVal t).map (fun n => -(n : Int))
  | '+' :: t => (digitsVal t).map (fun n => (n : Int))
  | t => (digitsVal t).map (fun n => (n : Int))

/-- Magnitude of a Python float literal without sign: digits with an
optional decimal point (`"12"`, `"12.5"`, `"12."`, `".5"`).  The
exponent/`inf`/`nan` forms `float()` also accepts are not exercised by
this module's callers and are modelled as unparsable. -/
def floatMag (cs : List Char) : Option PyFloat :=
  match cs.splitOn '.' with
  | [a] => (digitsVal a).map (fun n => ⟨(n : Int), 1⟩)
  | [a, b] =>
    if a.isEmpty && b.isEmpty then Option.none
    else if a.all Char.isDigit && b.all Char.isDigit then
      some ⟨((a.foldl (fun x c => x * 10 + (c.toNat - 48)) 0 : Nat) *
               10 ^ b.length +
             (b.foldl (fun x c => x * 10 + (c.toNat - 48)) 0 : Nat) : Nat),
            10 ^ b.length⟩
    else Option.none
  | _ => Option.none

/-- Python `float(s)` on a string, as an exact rational. -/
def pyFloat (s : String) : Option PyFloat :=
  match s.toList with
  | '-' :: t => (floatMag t).map (fun q => ⟨-q.num, q.den⟩)
  | '+' :: t => floatMag t
  | t => floatMag t

/-- A failure while extracting parameters: a missing required key
(`KeyError`, caught) or a failed numeric conversion (`ValueError`,
uncaught). -/
inductive ParseFail where
  | keyError (k : String)
  | valueError (m : String)
  deriving DecidableEq

/-- The parsed parameters, one field per local variable of the parsing
section of `__call__`.  `accuracy`/`radius`/`alt` keep the Python value
shape: `None` when absent, the empty string when supplied empty (the
`if x:` guard skips conversion), an int otherwise. -/
structure Params where
  user_id : String
  developer_hash : String
  timestamp : String
  layer_name : String
  lat : PyFloat
  lon : PyFloat
  accuracy : PyVal
  radius : PyVal
  alt : PyVal
  page : Int
  radio_option : Option String
  search : Option String
  search2 : Option String
  search3 : Option String
  slider : Option String
  slider2 : Option String
  slider3 : Option String
  checkboxes : PyVal

/-- A required string parameter: `request.GET[k]`, `KeyError` when
missing. -/
def reqParam (g : RawGet) (k : String) : Except ParseFail String :=
  match rawGet g k with
  | some v => .ok v
  | Option.none => .error (.keyError k)

/-- A required float parameter: `float(request.GET[k])`. -/
def reqFloat (g : RawGet) (k : String) : Except ParseFail PyFloat := do
  let s ← reqParam g k
  match pyFloat s with
  | some q => pure q
  | Option.none =>
      throw (.valueError ("could not convert string to float: " ++ s))

/-- `x = request.GET.get(k)` followed by `if x: x = int(x)`. -/
def optIntParam (g : RawGet) (k : String) : Except ParseFail PyVal :=
  match rawGet g k with
  | Option.none => .ok .none
  | some s =>
    if s = "" then .ok (.str "")
    else match pyInt s with
      | some n => .ok (.int n)
      | Option.none =>
          .error (.valueError
            ("invalid literal for int() with base 10: '" ++ s ++ "'"))

/-- `page = int(request.GET.get('pageKey', 0))`. -/
def pageParam (g : RawGet) : Except ParseFail Int :=
  match rawGet g "pageKey" with
  | Option.none => .ok 0
  | some s =>
    match pyInt s with
    | some n => .ok n
    | Option.none =>
        .error (.valueError
          ("invalid literal for int() with base 10: '" ++ s ++ "'"))

/-- `checkboxes = request.GET.get('CHECKBOXLIST')` followed by
`if checkboxes: checkboxes = checkboxes.split(',')`. -/
def checkboxesParam (g : RawGet) : PyVal :=
  match rawGet g "CHECKBOXLIST" with
  | Option.none => .none
  | some s =>
      if s = "" then .str ""
      else .list ((s.splitOn ",").map PyVal.str)

/-- The parameter-extraction block of `__call__`, in source order; the
first failure wins. -/
def parseParams (g : RawGet) : Except ParseFail Params := do
  let user_id ← reqParam g "userId"
  let developer_hash ← reqParam g "developerHash"
  let timestamp ← reqParam g "timestamp"
  let layer_name ← reqParam g "layerName"
  let lat ← reqFloat g "lat"
  let lon ← reqFloat g "lon"
  let accuracy ← optIntParam g "accuracy"
  let radius ← optIntParam g "radius"
  let alt ← optIntParam g "alt"
  let page ← pageParam g
  pure { user_id := user_id, developer_hash := developer_hash,
         timestamp := timestamp, layer_name := layer_name,
         lat := lat, lon := lon, accuracy := accuracy, radius := radius,
         alt := alt, page := page,
         radio_option := rawGet g "RADIOLIST",
         search := rawGet g "SEARCHBOX",
         search2 := rawGet g "SEARCHBOX_2",
         search3 := rawGet g "SEARCHBOX_3",
         slider := rawGet g "CUSTOM_SLIDER",
         slider2 := rawGet g "CUSTOM_SLIDER_2",
         slider3 := rawGet g "CUSTOM_SLIDER_3",
         checkboxes := checkboxesParam g }

/-! ## The view pipeline -/

/-- The keyword arguments `__call__` passes to the layer's queryset
function. -/
structure Criteria where
  latitude : PyFloat
  longitude : PyFloat
  radius : PyVal
  radio_option : Option String
  search_query : Option String
  search_query2 : Option String
  search_query3 : Option String
  slider_value : Option String
  slider_value2 : Option String
  slider_value3 : Option String
  checkboxes : PyVal

/-- The criteria built from the parsed parameters at the `qs_func(...)`
call site. -/
def criteriaOf (p : Params) : Criteria :=
  { latitude := p.lat, longitude := p.lon, radius := p.radius,
    radio_option := p.radio_option, search_query := p.search,
    search_query2 := p.search2, search_query3 := p.search3,
    slider_value := p.slider, slider_value2 := p.slider2,
    slider_value3 := p.slider3, checkboxes := p.checkboxes }

/-- A derived `LayarView` class.  `getQueryset name` models
`getattr(self, 'get_%s_queryset' % name)` (`none` when the attribute
lookup raises `AttributeError`) and `getPoiFunc name` models
`getattr(self, 'poi_from_%s_item' % name)` likewise; `sha1hex` models
`sha1(...).hexdigest()`. -/
structure LayarView (Item : Type) where
  results_per_page : Int := 15
  max_results : Int := 50
  default_radius : Int := 1000
  verify_hash : Bool := false
  developer_key : String := ""
  sha1hex : String → String
  getQueryset : String → Option (Criteria → List Item)
  getPoiFunc : String → Option (Item → POI)

/-- Clamp one bound of a Python sequence slice. -/
def pyBound (len : Nat) (i : Int) : Nat :=
  if i < 0 then ((len : Int) + i).toNat else min i.toNat len

/-- Python `xs[a:b]` on a sequence of known elements. -/
def pySlice (xs : List α) (a b : Int) : List α :=
  (xs.take (pyBound xs.length b)).drop (pyBound xs.length a)

/-- The pagination block of `__call__` (executed when
`self.results_per_page` is truthy): computes the slice bounds, flags
`morePages`/`nextPageKey` on the response when `end_index <
qs.count() - 1`, and slices the capped collection. -/
def paginateBlock (perPage page : Int) (qs : List α) (r : Dict) :
    Dict × List α :=
  let start_index := perPage * page
  let end_index := start_index + perPage
  let r := if end_index < (qs.length : Int) - 1 then
      dictSet (dictSet r "morePages" (.bool true))
        "nextPageKey" (.str (toString (page + 1)))
    else r
  (r, pySlice qs start_index end_index)

/-- `[poi.to_dict() for poi in pois]`: left to right, first raised
exception escapes. -/
def encodeAll : List POI → Except PyExc (List Dict)
  | [] => .ok []
  | p :: t => do
      let d ← p.to_dict
      let rest ← encodeAll t
      pure (d :: rest)

/-- Outcome of the guarded (`try ... except LayarException`) section of
`__call__`: normal completion, a raised `LayarException` (with the
response dict as mutated so far), or any other exception. -/
inductive TryOutcome where
  | ok (r : Dict)
  | layarError (r : Dict) (code : Int) (msg : String)
  | propagate (e : PyExc)

/-- The hash check: with verification enabled, compare
`sha1(self.developer_key + timestamp).hexdigest()` against the supplied
`developerHash`. -/
def LayarView.authFails (v : LayarView Item)
    (timestamp developer_hash : String) : Bool :=
  v.verify_hash && (v.sha1hex (v.developer_key ++ timestamp) != developer_hash)

/-- Capping plus pagination: `qs = qs[:self.max_results]` followed by
the pagination block when `self.results_per_page` is truthy.  Returns
the (possibly updated) response dict and the page slice. -/
def LayarView.pageOf (v : LayarView Item) (p : Params) (qs0 : List Item)
    (r : Dict) : Dict × List Item :=
  let qs := pySlice qs0 0 v.max_results
  if v.results_per_page != 0 then
    paginateBlock v.results_per_page p.page qs r
  else (r, qs)

/-- The success-path tail of the guarded section: store the encoded
hotspots on the response and, when the caller's radius is falsy, echo
the configured default radius. -/
def LayarView.successBody (v : LayarView Item) (p : Params) (r0 : Dict)
    (hs : List Dict) : Dict :=
  let r := dictSet r0 "hotspots" (.list (hs.map PyVal.dict))
  if !p.radius.truthy then dictSet r "radius" (.int v.default_radius)
  else r

/-- The guarded section from the `qs = qs_func(...)` call on: cap to
`max_results`, paginate when `results_per_page` is truthy, resolve the
POI conversion function (error 21 when missing — note this happens
*after* pagination), convert, and echo the default radius when the
caller's radius is falsy. -/
def LayarView.afterFetch (v : LayarView Item) (p : Params) (r : Dict)
    (qs0 : List Item) : TryOutcome :=
  let pr := v.pageOf p qs0 r
  match v.getPoiFunc p.layer_name with
  | Option.none => .layarError pr.1 21 ("no such layer: " ++ p.layer_name)
  | some poi_func =>
    match encodeAll (pr.2.map poi_func) with
    | .error e => .propagate e
    | .ok hotspots => .ok (v.successBody p pr.1 hotspots)

/-- The whole guarded section of `__call__`: hash verification, queryset
function resolution (error 21 when missing), then `afterFetch`. -/
def LayarView.tryBody (v : LayarView Item) (p : Params) (r : Dict) :
    TryOutcome :=
  if v.authFails p.timestamp p.developer_hash then
    .layarError r 20 "Bad developerHash"
  else
    match v.getQueryset p.layer_name with
    | Option.none => .layarError r 21 ("no such layer: " ++ p.layer_name)
    | some qs_func => v.afterFetch p r (qs_func (criteriaOf p))

/-- The `layar_response` dict as initialized after parsing. -/
def defaultResponse (layer_name : String) : Dict :=
  [("hotspots", .list []), ("layer", .str layer_name),
   ("errorCode", .int 0), ("errorString", .str "ok"),
   ("nextPageKey", .none), ("morePages", .bool false)]

/-- What `__call__` hands back to Django: an `HttpResponseBadRequest`
(HTTP 400) for a missing required parameter, a normal `HttpResponse`
(HTTP 200, `application/javascript; charset=utf-8`) carrying the JSON
body otherwise, or an exception propagating out of the view (no
response object is produced; Django turns it into a server error). -/
inductive CallResult where
  | badRequest (body : String)
  | response (body : Dict)
  | uncaught (e : PyExc)

/-- The `except LayarException` handler: write the exception's code and
message onto the response dict. -/
def captureError (r : Dict) (c : Int) (m : String) : Dict :=
  dictSet (dictSet r "errorCode" (.int c)) "errorString" (.str m)

/-- `LayarView.__call__`: parse (KeyError → 400 naming the key,
ValueError → propagates), initialize the default response, run the
guarded section catching only `LayarException` (folding its
code/message into the body), and return the serialized body. -/
def LayarView.call (v : LayarView Item) (g : RawGet) : CallResult :=
  match parseParams g with
  | .error (.keyError k) =>
      .badRequest ("missing required parameter: '" ++ k ++ "'")
  | .error (.valueError m) => .uncaught (.valueError m)
  | .ok p =>
    match v.tryBody p (defaultResponse p.layer_name) with
    | .ok r => .response r
    | .layarError r code msg => .response (captureError r code msg)
    | .propagate e => .uncaught e

/-! ## Auxiliary predicates and concrete demonstration instances -/

/-- Is the value a Python list? -/
def PyVal.isList : PyVal → Bool
  | .list _ => true
  | _ => false

/-- Is the value a Python dict? -/
def PyVal.isDict : PyVal → Bool
  | .dict _ => true
  | _ => false

/-- The JSON body of a normal (HTTP 200) response, when one was
produced. -/
def responseBody : CallResult → Option Dict
  | .response b => some b
  | _ => Option.none

/-- A minimal item-to-POI conversion used by the demonstration views. -/
def demoPoi (n : Nat) : POI := mkPOI (.int n) (.int 0) (.int 0) (.str "p")

/-- The encoding `(demoPoi n).to_dict` produces. -/
def demoPoiDict (n : Nat) : Dict :=
  [("id", .str (toString n)), ("lat", .int 0), ("lon", .int 0),
   ("title", .str "p"), ("imageURL", .none), ("line2", .none),
   ("line3", .none), ("line4", .none), ("type", .int 0),
   ("attribution", .none), ("dimension", .int 1), ("actions", .list [])]

/-- A view (class defaults) whose layer `"foo"` defines
`get_foo_queryset` (17 items) but no `poi_from_foo_item`. -/
def adaptlessView : LayarView Nat :=
  { sha1hex := fun _ => "",
    getQueryset := fun name =>
      if name = "foo" then some (fun _ => List.range 17) else Option.none,
    getPoiFunc := fun _ => Option.none }

/-- A view (class defaults) whose layer `"foo"` defines both
`get_foo_queryset` (3 items) and `poi_from_foo_item`. -/
def fullView : LayarView Nat :=
  { sha1hex := fun _ => "",
    getQueryset := fun name =>
      if name = "foo" then some (fun _ => List.range 3) else Option.none,
    getPoiFunc := fun name =>
      if name = "foo" then some demoPoi else Option.none }

/-- A view with no layers at all. -/
def emptyView : LayarView Nat :=
  { sha1hex := fun _ => "",
    getQueryset := fun _ => Option.none,
    getPoiFunc := fun _ => Option.none }

/-- A view with hash verification enabled, with `sha1hex` instantiated
by a concrete stand-in digest function. -/
def verifyingView : LayarView Nat :=
  { verify_hash := true, developer_key := "secret",
    sha1hex := fun s => s ++ "#digest",
    getQueryset := fun _ => Option.none,
    getPoiFunc := fun _ => Option.none }

/-- A well-formed request for layer `"foo"` with all required
parameters. -/
def okRequest : RawGet :=
  [("userId", "u"), ("developerHash", "h"), ("timestamp", "ts"),
   ("layerName", "foo"), ("lat", "1.5"), ("lon", "2.5")]

/-- The same request with an unparsable `lat`. -/
def badLatRequest : RawGet :=
  [("userId", "u"), ("developerHash", "h"), ("timestamp", "ts"),
   ("layerName", "foo"), ("lat", "garbage"), ("lon", "2.5")]

/-- The well-formed request with a caller-supplied `radius=0`. -/
def radiusZeroRequest : RawGet := okRequest ++ [("radius", "0")]

/-- The parameters `okRequest` parses to. -/
def okParams : Params :=
  { user_id := "u", developer_hash := "h", timestamp := "ts",
    layer_name := "foo", lat := ⟨15, 10⟩, lon := ⟨25, 10⟩,
    accuracy := .none, radius := .none, alt := .none, page := 0,
    radio_option := Option.none, search := Option.none,
    search2 := Option.none, search3 := Option.none,
    slider := Option.none, slider2 := Option.none,
    slider3 := Option.none, checkboxes := .none }

/-- The parameters `radiusZeroRequest` parses to. -/
def radiusZeroParams : Params := { okParams with radius := .int 0 }

/-- Parameters whose `developerHash` matches `verifyingView`'s digest of
`developer_key ++ timestamp`. -/
def goodHashParams : Params :=
  { okParams with developer_hash := "secretts#digest" }

/-- A POI with a truthy `alt` (5), a falsy `transform` (unset), and a
set `line2`; the other optional fields keep their defaults. -/
def mixedPOI : POI :=
  mkPOI (.int 1) (.int 0) (.int 0) (.str "t") .none .none (.str "x")
    .none .none (.int 0) .none (.int 1) (.int 5)

/-- A POI whose `actions` is a (two-element-dict) list. -/
def listActionsPOI : POI :=
  mkPOI (.int 1) (.int 0) (.int 0) (.str "t")
    (.list [.dict [("label", .str "l"), ("uri", .str "u")]])

/-- A POI whose `actions` is an (unordered) dict. -/
def dictActionsPOI : POI :=
  mkPOI (.int 1) (.int 0) (.int 0) (.str "t") (.dict [("l", .str "u")])

/-! ## Dictionary lemmas -/

theorem dictGet_dictSet (d : Dict) (k k' : String) (v : PyVal) :
    dictGet (dictSet d k v) k' = if k' = k then some v else dictGet d k' := by
  induction d with
  | nil =>
    by_cases h : k' = k
    · subst h; simp [dictSet, dictGet]
    · simp [dictSet, dictGet, h, Ne.symm h]
  | cons kv t ih =>
    obtain ⟨k'', v''⟩ := kv
    by_cases h1 : k'' = k
    · subst h1
      by_cases h2 : k' = k''
      · subst h2; simp [dictSet, dictGet]
      · simp [dictSet, dictGet, h2, Ne.symm h2]
    · by_cases h2 : k'' = k'
      · subst h2
        simp [dictSet, dictGet, h1, Ne.symm h1]
      · simp [dictSet, dictGet, h1, h2, ih]

theorem dictGet_dictDel_ne (d : Dict) (k k' : String) (h : k' ≠ k) :
    dictGet (dictDel d k) k' = dictGet d k' := by
  induction d with
  | nil => rfl
  | cons kv t ih =>
    obtain ⟨k'', v''⟩ := kv
    by_cases h1 : k'' = k
    · subst h1
      simp [dictDel, dictGet, Ne.symm h]
    · simp [dictDel, dictGet, h1, ih]

theorem defaultResponse_morePages (name : String) :
    dictGet (defaultResponse name) "morePages" = some (.bool false) := rfl

theorem defaultResponse_nextPageKey (name : String) :
    dictGet (defaultResponse name) "nextPageKey" = some .none := rfl

theorem defaultResponse_hotspots (name : String) :
    dictGet (defaultResponse name) "hotspots" = some (.list []) := rfl

theorem defaultResponse_layer (name : String) :
    dictGet (defaultResponse name) "layer" = some (.str name) := rfl

theorem defaultResponse_errorCode (name : String) :
    dictGet (defaultResponse name) "errorCode" = some (.int 0) := rfl

theorem defaultResponse_errorString (name : String) :
    dictGet (defaultResponse name) "errorString" = some (.str "ok") := rfl

theorem defaultResponse_radius (name : String) :
    dictGet (defaultResponse name) "radius" = Option.none := rfl

/-! ## Pagination lemmas -/

theorem paginateBlock_fst_ne (P pg : Int) (qs : List α) (r : Dict)
    (key : String) (h1 : key ≠ "morePages") (h2 : key ≠ "nextPageKey") :
    dictGet (paginateBlock P pg qs r).1 key = dictGet r key := by
  simp only [paginateBlock]
  split
  · simp [dictGet_dictSet, h1, h2]
  · rfl

theorem paginateBlock_snd (P pg : Int) (qs : List α) (r : Dict) :
    (paginateBlock P pg qs r).2 = pySlice qs (P * pg) (P * pg + P) := rfl

theorem paginateBlock_morePages (P pg : Int) (qs : List α) (r : Dict)
    (hm : dictGet r "morePages" = some (.bool false)) :
    dictGet (paginateBlock P pg qs r).1 "morePages" =
      some (.bool (decide (P * pg + P < (qs.length : Int) - 1))) := by
  simp only [paginateBlock]
  split
  · next hc => simp [dictGet_dictSet, hc]
  · next hc => simp [hm, hc]

theorem paginateBlock_nextPageKey (P pg : Int) (qs : List α) (r : Dict)
    (hn : dictGet r "nextPageKey" = some .none) :
    dictGet (paginateBlock P pg qs r).1 "nextPageKey" =
      (if P * pg + P < (qs.length : Int) - 1
       then some (.str (toString (pg + 1))) else some .none) := by
  simp only [paginateBlock]
  split
  · next hc => simp [dictGet_dictSet, hc]
  · next hc => simp [hn, hc]

/-! ## Inversion lemmas for the guarded section -/

/-- When the guarded section raises a `LayarException`, the response
dict captured with it is the default response, possibly with the
pagination block's updates (the error-21-at-adapt-resolution case). -/
theorem tryBody_layarError_inv {Item : Type} (v : LayarView Item)
    (p : Params) (name : String) (r : Dict) (c : Int) (m : String)
    (h : v.tryBody p (defaultResponse name) = .layarError r c m) :
    r = defaultResponse name ∨
      ∃ qs : List Item,
        r = (paginateBlock v.results_per_page p.page qs
              (defaultResponse name)).1 := by
  unfold LayarView.tryBody at h
  split at h
  · cases h; exact Or.inl rfl
  · split at h
    · cases h; exact Or.inl rfl
    · simp only [LayarView.afterFetch, LayarView.pageOf] at h
      split at h
      · split at h <;> cases h
        · next hrpp _ =>
            exact Or.inr ⟨_, rfl⟩
        · exact Or.inl rfl
      · split at h <;> cases h

/-- When the guarded section completes normally, the final dict is the
base dict (default response possibly updated by pagination) with
`hotspots` set and, when the caller's radius is falsy, `radius` set. -/
theorem tryBody_ok_inv {Item : Type} (v : LayarView Item)
    (p : Params) (name : String) (r' : Dict)
    (h : v.tryBody p (defaultResponse name) = .ok r') :
    ∃ (r0 : Dict) (hs : List Dict),
      (r0 = defaultResponse name ∨
        ∃ qs : List Item,
          r0 = (paginateBlock v.results_per_page p.page qs
                (defaultResponse name)).1) ∧
      r' = v.successBody p r0 hs := by
  unfold LayarView.tryBody at h
  split at h
  · cases h
  · split at h
    · cases h
    · simp only [LayarView.afterFetch, LayarView.pageOf] at h
      split at h
      · cases h
      · split at h
        · cases h
        · next hs henc =>
          by_cases hrpp : (v.results_per_page != 0) = true
          · rw [if_pos hrpp] at h
            cases h
            exact ⟨_, hs, Or.inr ⟨_, rfl⟩, rfl⟩
          · rw [if_neg hrpp] at h
            cases h
            exact ⟨defaultResponse name, hs, Or.inl rfl, rfl⟩

/-- A base dict (default response after the pagination block) agrees
with the default response on every key other than `morePages` and
`nextPageKey`. -/
theorem base_get_ne {Item : Type} (v : LayarView Item) (p : Params)
    (name : String) (r0 : Dict) (key : String)
    (h1 : key ≠ "morePages") (h2 : key ≠ "nextPageKey")
    (hr : r0 = defaultResponse name ∨
      ∃ qs : List Item,
        r0 = (paginateBlock v.results_per_page p.page qs
              (defaultResponse name)).1) :
    dictGet r0 key = dictGet (defaultResponse name) key := by
  rcases hr with rfl | ⟨qs, rfl⟩
  · rfl
  · exact paginateBlock_fst_ne _ _ _ _ _ h1 h2

/-! ## Claim C1 -/

/-- C1: on a collection capped to size `N ≤ maxResults`, with
`perPage = P > 0` and page index `k ≥ 0`, the pagination block returns
the slice `[k*P, k*P+P)` — hence exactly `max 0 (min P (N - k*P))`
items — reports `morePages` exactly when `k*P + P < N - 1` (the
off-by-one comparison against the capped count minus one), and sets
`nextPageKey` to the string of `k+1` exactly when `morePages` holds and
leaves it `nil` otherwise. -/
theorem C1_pagination {α : Type} (P k maxResults : Int) (qs : List α)
    (name : String) (hP : 0 < P) (hk : 0 ≤ k)
    (_hcap : (qs.length : Int) ≤ maxResults) :
    (paginateBlock P k qs (defaultResponse name)).2.length =
        (max 0 (min P ((qs.length : Int) - k * P))).toNat
    ∧ (paginateBlock P k qs (defaultResponse name)).2 =
        pySlice qs (k * P) (k * P + P)
    ∧ dictGet (paginateBlock P k qs (defaultResponse name)).1 "morePages" =
        some (.bool (decide (k * P + P < (qs.length : Int) - 1)))
    ∧ dictGet (paginateBlock P k qs (defaultResponse name)).1 "nextPageKey" =
        (if k * P + P < (qs.length : Int) - 1
         then some (.str (toString (k + 1))) else some .none) := by
  have hcomm : k * P = P * k := mul_comm k P
  have hx : 0 ≤ P * k := mul_nonneg hP.le hk
  have hb : 0 ≤ P * k + P := by omega
  refine ⟨?_, ?_, ?_, ?_⟩
  · rw [hcomm, paginateBlock_snd]
    simp only [pySlice, pyBound, List.length_drop, List.length_take,
      if_neg (not_lt.mpr hx), if_neg (not_lt.mpr hb)]
    omega
  · rw [hcomm, paginateBlock_snd]
  · rw [hcomm,
      paginateBlock_morePages P k qs (defaultResponse name)
        (defaultResponse_morePages name)]
  · rw [hcomm,
      paginateBlock_nextPageKey P k qs (defaultResponse name)
        (defaultResponse_nextPageKey name)]

/-- Witness for C1 at the spec's scenario: size 47, `perPage = 15`,
page 2 — 15 items, `morePages`, `nextPageKey = "3"`. -/
theorem C1_pagination_witness :
    (paginateBlock 15 2 (List.range 47) (defaultResponse "foo")).2.length = 15
    ∧ dictGet (paginateBlock 15 2 (List.range 47)
        (defaultResponse "foo")).1 "morePages" = some (.bool true)
    ∧ dictGet (paginateBlock 15 2 (List.range 47)
        (defaultResponse "foo")).1 "nextPageKey" = some (.str "3") := by
  have h := C1_pagination 15 2 50 (List.range 47) "foo" (by norm_num)
    (by norm_num) (by simp)
  refine ⟨?_, ?_, ?_⟩
  · rw [h.1]; rfl
  · rw [h.2.2.1]; rfl
  · rw [h.2.2.2]; rfl

/-! ## Claim C2 -/

/-- C2 counterexample: on a view whose layer has a queryset function but
no POI conversion function, with a 17-item collection, the captured
error-21 response carries `morePages = true` and `nextPageKey = "1"` —
not the claimed "only errorCode and errorString changed from their
defaults" with `morePages = false`.  The failure is raised at the
conversion-resolution stage, after pagination has already mutated the
response. -/
theorem C2_counterexample :
    (responseBody (adaptlessView.call okRequest)).map
      (fun b => (dictGet b "errorCode", dictGet b "morePages",
                 dictGet b "nextPageKey")) =
      some (some (.int 21), some (.bool true), some (.str "1")) := rfl

/-- C2 as amended: every `LayarException` raised in the guarded section
is captured, never propagated as a transport error: the result is a
normal success response whose body has `hotspots = []`, `errorCode` and
`errorString` set from the exception, the echoed `layer`, and no
`radius`; `morePages`/`nextPageKey` keep their defaults whenever the
failure occurred at the authentication or queryset-resolution stage
(before pagination), but may carry pagination's values when the failure
is at the conversion-resolution stage. -/
theorem C2_amended {Item : Type} (v : LayarView Item) (g : RawGet)
    (p : Params) (r : Dict) (c : Int) (m : String)
    (hp : parseParams g = .ok p)
    (ht : v.tryBody p (defaultResponse p.layer_name) = .layarError r c m) :
    v.call g = .response (captureError r c m)
    ∧ dictGet (captureError r c m) "hotspots" = some (.list [])
    ∧ dictGet (captureError r c m) "errorCode" = some (.int c)
    ∧ dictGet (captureError r c m) "errorString" = some (.str m)
    ∧ dictGet (captureError r c m) "layer" = some (.str p.layer_name)
    ∧ dictGet (captureError r c m) "radius" = Option.none
    ∧ ((v.authFails p.timestamp p.developer_hash = true ∨
        v.getQueryset p.layer_name = Option.none) →
        dictGet (captureError r c m) "morePages" = some (.bool false) ∧
        dictGet (captureError r c m) "nextPageKey" = some .none) := by
  have hbase := tryBody_layarError_inv v p p.layer_name r c m ht
  have hget : ∀ key, key ≠ "errorCode" → key ≠ "errorString" →
      dictGet (captureError r c m) key = dictGet r key := by
    intro key h1 h2
    simp [captureError, dictGet_dictSet, h1, h2]
  have hfromdft : ∀ key, key ≠ "errorCode" → key ≠ "errorString" →
      key ≠ "morePages" → key ≠ "nextPageKey" →
      dictGet (captureError r c m) key =
        dictGet (defaultResponse p.layer_name) key := by
    intro key h1 h2 h3 h4
    rw [hget key h1 h2]
    exact base_get_ne v p p.layer_name r key h3 h4 hbase
  refine ⟨?_, ?_, ?_, ?_, ?_, ?_, ?_⟩
  · simp [LayarView.call, hp, ht]
  · rw [hfromdft "hotspots" (by decide) (by decide) (by decide) (by decide)]
    rfl
  · simp [captureError, dictGet_dictSet]
  · simp [captureError, dictGet_dictSet]
  · rw [hfromdft "layer" (by decide) (by decide) (by decide) (by decide)]
    rfl
  · rw [hfromdft "radius" (by decide) (by decide) (by decide) (by decide)]
    rfl
  · intro hpre
    have hr : r = defaultResponse p.layer_name := by
      rcases hpre with hauth | hq
      · unfold LayarView.tryBody at ht
        rw [if_pos hauth] at ht
        cases ht
        rfl
      · unfold LayarView.tryBody at ht
        split at ht
        · cases ht; rfl
        · rw [hq] at ht
          cases ht
          rfl
    subst hr
    constructor
    · rw [hget "morePages" (by decide) (by decide)]
      rfl
    · rw [hget "nextPageKey" (by decide) (by decide)]
      rfl

/-- Witness for the amended C2: a view with no layers, on a well-formed
request — error 21 captured into a success-shaped body with all default
fields intact. -/
theorem C2_amended_witness :
    emptyView.call okRequest = .response (captureError
        (defaultResponse "foo") 21 "no such layer: foo")
    ∧ dictGet (captureError (defaultResponse "foo") 21 "no such layer: foo")
        "hotspots" = some (.list [])
    ∧ dictGet (captureError (defaultResponse "foo") 21 "no such layer: foo")
        "errorCode" = some (.int 21)
    ∧ dictGet (captureError (defaultResponse "foo") 21 "no such layer: foo")
        "errorString" = some (.str "no such layer: foo")
    ∧ dictGet (captureError (defaultResponse "foo") 21 "no such layer: foo")
        "layer" = some (.str "foo")
    ∧ dictGet (captureError (defaultResponse "foo") 21 "no such layer: foo")
        "radius" = Option.none
    ∧ dictGet (captureError (defaultResponse "foo") 21 "no such layer: foo")
        "morePages" = some (.bool false)
    ∧ dictGet (captureError (defaultResponse "foo") 21 "no such layer: foo")
        "nextPageKey" = some .none := by
  have h := C2_amended emptyView okRequest okParams
    (defaultResponse "foo") 21 "no such layer: foo" rfl rfl
  have hlast := h.2.2.2.2.2.2 (Or.inr rfl)
  exact ⟨h.1, h.2.1, h.2.2.1, h.2.2.2.1, h.2.2.2.2.1, h.2.2.2.2.2.1,
    hlast.1, hlast.2⟩

/-! ## Claim C3 -/

/-- C3 counterexample: with all required parameters present but `lat`
not parseable as a float, the request is *not* surfaced as a
transport-level client error naming the offending field: the
`ValueError` raised by `float()` propagates out of the view uncaught
(Django turns it into a server error), and its message does not name
the `lat` field. -/
theorem C3_counterexample :
    fullView.call badLatRequest =
      .uncaught (.valueError "could not convert string to float: garbage") :=
  rfl

/-- C3 as amended: a parameter-extraction failure always aborts before
any authentication or layer logic (the result is the same for every
view and is never a LayerResponse body); a missing required parameter
is surfaced as a transport-level client error naming the offending
field, while a present-but-unparsable numeric parameter propagates as
an uncaught `ValueError` — a server-side transport failure, not a
client error naming the field. -/
theorem C3_amended {Item : Type} (v : LayarView Item) (g : RawGet)
    (f : ParseFail) (hf : parseParams g = .error f) :
    (∀ k, f = .keyError k →
      v.call g = .badRequest ("missing required parameter: '" ++ k ++ "'"))
    ∧ (∀ m, f = .valueError m → v.call g = .uncaught (.valueError m)) := by
  constructor
  · rintro k rfl
    simp [LayarView.call, hf]
  · rintro m rfl
    simp [LayarView.call, hf]

/-- Witness for the amended C3: a request with no parameters at all
(missing `userId`) and the bad-`lat` request. -/
theorem C3_amended_witness :
    fullView.call [] = .badRequest "missing required parameter: 'userId'"
    ∧ fullView.call badLatRequest =
        .uncaught (.valueError "could not convert string to float: garbage")
    := by
  refine ⟨?_, ?_⟩
  · exact (C3_amended fullView [] (.keyError "userId") rfl).1 "userId" rfl
  · exact (C3_amended fullView badLatRequest
      (.valueError "could not convert string to float: garbage") rfl).2 _ rfl

/-! ## Claim C4 -/

/-- C4: with hash verification enabled, the pipeline proceeds past
authentication iff the supplied `developerHash` equals the hex digest
of the shared secret concatenated with the timestamp (secret first);
any mismatch raises the captured error 20 "Bad developerHash"; with
verification disabled, every hash value (including garbage) passes. -/
theorem C4_auth {Item : Type} (v : LayarView Item) (p : Params)
    (r : Dict) :
    (v.verify_hash = true →
      p.developer_hash = v.sha1hex (v.developer_key ++ p.timestamp) →
      v.tryBody p r = (match v.getQueryset p.layer_name with
        | Option.none =>
            .layarError r 21 ("no such layer: " ++ p.layer_name)
        | some qs_func => v.afterFetch p r (qs_func (criteriaOf p))))
    ∧ (v.verify_hash = true →
      p.developer_hash ≠ v.sha1hex (v.developer_key ++ p.timestamp) →
      v.tryBody p r = .layarError r 20 "Bad developerHash")
    ∧ (v.verify_hash = false →
      v.tryBody p r = (match v.getQueryset p.layer_name with
        | Option.none =>
            .layarError r 21 ("no such layer: " ++ p.layer_name)
        | some qs_func => v.afterFetch p r (qs_func (criteriaOf p)))) := by
  refine ⟨?_, ?_, ?_⟩
  · intro hv he
    have hok : v.authFails p.timestamp p.developer_hash = false := by
      simp [LayarView.authFails, hv, he]
    simp [LayarView.tryBody, hok]
  · intro hv he
    have hbad : v.authFails p.timestamp p.developer_hash = true := by
      simp only [LayarView.authFails, hv, Bool.true_and, bne_iff_ne]
      exact fun hh => he hh.symm
    simp [LayarView.tryBody, hbad]
  · intro hv
    have hok : v.authFails p.timestamp p.developer_hash = false := by
      simp [LayarView.authFails, hv]
    simp [LayarView.tryBody, hok]

/-- Witness for C4: the enabled view accepts the matching digest
(proceeding to dispatch), rejects a wrong one with error 20, and the
disabled view lets a garbage hash through to dispatch. -/
theorem C4_auth_witness :
    verifyingView.tryBody goodHashParams (defaultResponse "foo") =
      .layarError (defaultResponse "foo") 21 "no such layer: foo"
    ∧ verifyingView.tryBody okParams (defaultResponse "foo") =
      .layarError (defaultResponse "foo") 20 "Bad developerHash"
    ∧ emptyView.tryBody okParams (defaultResponse "foo") =
      .layarError (defaultResponse "foo") 21 "no such layer: foo" := by
  refine ⟨?_, ?_, ?_⟩
  · have h := (C4_auth verifyingView goodHashParams
      (defaultResponse "foo")).1 rfl rfl
    rw [h]
    rfl
  · exact (C4_auth verifyingView okParams (defaultResponse "foo")).2.1
      rfl (by decide)
  · have h := (C4_auth emptyView okParams (defaultResponse "foo")).2.2 rfl
    rw [h]
    rfl

/-! ## POI-encoding lemmas -/

theorem encDrop_get_ne (p : POI) (key : String) (h1 : key ≠ "alt")
    (h2 : key ≠ "transform") (h3 : key ≠ "object")
    (h4 : key ≠ "relativeAlt") :
    dictGet p.encDrop key = dictGet p.attrDict key := by
  unfold POI.encDrop
  split <;> split <;> split <;> split <;>
    simp only [dictGet_dictDel_ne _ _ _ h1, dictGet_dictDel_ne _ _ _ h2,
      dictGet_dictDel_ne _ _ _ h3, dictGet_dictDel_ne _ _ _ h4]

theorem encDrop_get_alt (p : POI) :
    dictGet p.encDrop "alt" =
      if p.alt.truthy then some p.alt else Option.none := by
  unfold POI.encDrop
  split <;> split <;> split <;> split <;>
    simp_all [POI.attrDict, dictDel, dictGet]

theorem encDrop_get_transform (p : POI) :
    dictGet p.encDrop "transform" =
      if p.transform.truthy then some p.transform else Option.none := by
  unfold POI.encDrop
  split <;> split <;> split <;> split <;>
    simp_all [POI.attrDict, dictDel, dictGet]

theorem encDrop_get_object (p : POI) :
    dictGet p.encDrop "object" =
      if p.object.truthy then some p.object else Option.none := by
  unfold POI.encDrop
  split <;> split <;> split <;> split <;>
    simp_all [POI.attrDict, dictDel, dictGet]

theorem encDrop_get_relativeAlt (p : POI) :
    dictGet p.encDrop "relativeAlt" =
      if p.relativeAlt.truthy then some p.relativeAlt else Option.none := by
  unfold POI.encDrop
  split <;> split <;> split <;> split <;>
    simp_all [POI.attrDict, dictDel, dictGet]

theorem encCoords_get_ne (p : POI) (key : String) (h1 : key ≠ "lat")
    (h2 : key ≠ "lon") :
    dictGet p.encCoords key = dictGet p.encDrop key := by
  unfold POI.encCoords
  split <;> split <;> simp [dictGet_dictSet, h1, h2]

theorem encCoords_get_lat (p : POI) :
    dictGet p.encCoords "lat" =
      (match p.lat with
       | .float q => some (.int (fixedPoint q))
       | _ => some p.lat) := by
  unfold POI.encCoords
  split <;> split <;>
    simp_all [dictGet_dictSet,
      encDrop_get_ne p "lat" (by decide) (by decide) (by decide) (by decide),
      POI.attrDict, dictGet]

theorem encCoords_get_lon (p : POI) :
    dictGet p.encCoords "lon" =
      (match p.lon with
       | .float q => some (.int (fixedPoint q))
       | _ => some p.lon) := by
  unfold POI.encCoords
  split <;> split <;>
    simp_all [dictGet_dictSet,
      encDrop_get_ne p "lon" (by decide) (by decide) (by decide) (by decide),
      POI.attrDict, dictGet]

/-- When `actions` is not a dict, `to_dict` succeeds and agrees with the
coordinate-converted dict on every key except `actions`. -/
theorem to_dict_shape (p : POI) (hp : p.actions.isDict = false) :
    ∃ d, p.to_dict = .ok d ∧
      ∀ key, key ≠ "actions" → dictGet d key = dictGet p.encCoords key := by
  unfold POI.to_dict
  cases hact : p.actions with
  | dict kvs => rw [hact] at hp; cases hp
  | list l => exact ⟨p.encCoords, rfl, fun key hk => rfl⟩
  | none =>
      exact ⟨_, rfl, fun key hk => by simp [dictGet_dictSet, hk]⟩
  | bool b =>
      exact ⟨_, rfl, fun key hk => by simp [dictGet_dictSet, hk]⟩
  | int n =>
      exact ⟨_, rfl, fun key hk => by simp [dictGet_dictSet, hk]⟩
  | float q =>
      exact ⟨_, rfl, fun key hk => by simp [dictGet_dictSet, hk]⟩
  | str s =>
      exact ⟨_, rfl, fun key hk => by simp [dictGet_dictSet, hk]⟩

/-! ## Claim C5 -/

/-- C5: with authentication passing, a layer name lacking the queryset
function raises the captured error 21 with message
`"no such layer: {name}"`, and a layer name having the queryset
function but lacking the POI conversion function raises the *same*
code-21 error with the *same* message; when both are present, the
queryset function is invoked on the criteria translated from the
request parameters and, whenever encoding succeeds, the POI conversion
function's outputs on the paginated items become the response body. -/
theorem C5_dispatch {Item : Type} (v : LayarView Item) (p : Params)
    (r : Dict)
    (hauth : v.authFails p.timestamp p.developer_hash = false) :
    (v.getQueryset p.layer_name = Option.none →
      v.tryBody p r = .layarError r 21 ("no such layer: " ++ p.layer_name))
    ∧ (∀ qs_func, v.getQueryset p.layer_name = some qs_func →
        v.getPoiFunc p.layer_name = Option.none →
        v.tryBody p r = .layarError
          (v.pageOf p (qs_func (criteriaOf p)) r).1 21
          ("no such layer: " ++ p.layer_name))
    ∧ (∀ qs_func poi_func, v.getQueryset p.layer_name = some qs_func →
        v.getPoiFunc p.layer_name = some poi_func →
        v.tryBody p r = v.afterFetch p r (qs_func (criteriaOf p))
        ∧ ∀ hs, encodeAll ((v.pageOf p (qs_func (criteriaOf p)) r).2.map
            poi_func) = .ok hs →
          v.tryBody p r = .ok (v.successBody p
            (v.pageOf p (qs_func (criteriaOf p)) r).1 hs)) := by
  have hne : ¬ (v.authFails p.timestamp p.developer_hash = true) := by
    simp [hauth]
  refine ⟨?_, ?_, ?_⟩
  · intro hq
    simp [LayarView.tryBody, hne, hq]
  · intro qs_func hq ha
    simp [LayarView.tryBody, hne, hq, LayarView.afterFetch, ha]
  · intro qs_func poi_func hq ha
    constructor
    · simp [LayarView.tryBody, hne, hq]
    · intro hs henc
      simp [LayarView.tryBody, hne, hq, LayarView.afterFetch, ha, henc]

/-- Witness for C5: the no-layers view, the queryset-only view, and the
fully-equipped view, all on the same well-formed request for layer
`"foo"`. -/
theorem C5_dispatch_witness :
    emptyView.tryBody okParams (defaultResponse "foo") =
      .layarError (defaultResponse "foo") 21 "no such layer: foo"
    ∧ adaptlessView.tryBody okParams (defaultResponse "foo") =
      .layarError
        (adaptlessView.pageOf okParams (List.range 17)
          (defaultResponse "foo")).1 21 "no such layer: foo"
    ∧ fullView.tryBody okParams (defaultResponse "foo") =
      .ok (fullView.successBody okParams
        (fullView.pageOf okParams (List.range 3)
          (defaultResponse "foo")).1
        [demoPoiDict 0, demoPoiDict 1, demoPoiDict 2]) := by
  refine ⟨?_, ?_, ?_⟩
  · exact (C5_dispatch emptyView okParams (defaultResponse "foo") rfl).1 rfl
  · exact (C5_dispatch adaptlessView okParams (defaultResponse "foo")
      rfl).2.1 (fun _ => List.range 17) rfl rfl
  · exact ((C5_dispatch fullView okParams (defaultResponse "foo")
      rfl).2.2 (fun _ => List.range 3) demoPoi rfl rfl).2
      [demoPoiDict 0, demoPoiDict 1, demoPoiDict 2] rfl

/-! ## Claim C6 -/

/-- C6 counterexample: a POI with all optional fields unset still
carries the `line2` key (bound to `None`) in its encoding — the claim
that every absent/falsy optional field among `imageURL`, `line2`,
`line3`, `line4`, `attribution`, `alt`, `relativeAlt`, `transform`,
`object` is omitted entirely is false for the first five. -/
theorem C6_counterexample :
    ((mkPOI (.int 1) (.int 0) (.int 0) (.str "t")).to_dict.map
      (fun d => dictGet d "line2")) = .ok (some .none) := rfl

/-- C6 as amended: the encoder drops exactly `alt`, `transform`,
`object` and `relativeAlt` when their value is falsy, and retains them
when truthy; the remaining optional fields `imageURL`, `line2`,
`line3`, `line4`, `attribution` are always retained whatever their
value (absent ones appear bound to `None`). -/
theorem C6_amended (p : POI) (hp : p.actions.isDict = false) :
    p.to_dict.map (fun d => dictGet d "alt") =
      .ok (if p.alt.truthy then some p.alt else Option.none)
    ∧ p.to_dict.map (fun d => dictGet d "transform") =
      .ok (if p.transform.truthy then some p.transform else Option.none)
    ∧ p.to_dict.map (fun d => dictGet d "object") =
      .ok (if p.object.truthy then some p.object else Option.none)
    ∧ p.to_dict.map (fun d => dictGet d "relativeAlt") =
      .ok (if p.relativeAlt.truthy then some p.relativeAlt else Option.none)
    ∧ p.to_dict.map (fun d => dictGet d "imageURL") = .ok (some p.imageURL)
    ∧ p.to_dict.map (fun d => dictGet d "line2") = .ok (some p.line2)
    ∧ p.to_dict.map (fun d => dictGet d "line3") = .ok (some p.line3)
    ∧ p.to_dict.map (fun d => dictGet d "line4") = .ok (some p.line4)
    ∧ p.to_dict.map (fun d => dictGet d "attribution") =
      .ok (some p.attribution) := by
  obtain ⟨d, hd, hkeys⟩ := to_dict_shape p hp
  refine ⟨?_, ?_, ?_, ?_, ?_, ?_, ?_, ?_, ?_⟩ <;>
    rw [hd] <;> simp only [Except.map]
  · rw [hkeys "alt" (by decide),
      encCoords_get_ne p "alt" (by decide) (by decide), encDrop_get_alt]
  · rw [hkeys "transform" (by decide),
      encCoords_get_ne p "transform" (by decide) (by decide),
      encDrop_get_transform]
  · rw [hkeys "object" (by decide),
      encCoords_get_ne p "object" (by decide) (by decide),
      encDrop_get_object]
  · rw [hkeys "relativeAlt" (by decide),
      encCoords_get_ne p "relativeAlt" (by decide) (by decide),
      encDrop_get_relativeAlt]
  · rw [hkeys "imageURL" (by decide),
      encCoords_get_ne p "imageURL" (by decide) (by decide),
      encDrop_get_ne p "imageURL" (by decide) (by decide) (by decide)
        (by decide)]
    rfl
  · rw [hkeys "line2" (by decide),
      encCoords_get_ne p "line2" (by decide) (by decide),
      encDrop_get_ne p "line2" (by decide) (by decide) (by decide)
        (by decide)]
    rfl
  · rw [hkeys "line3" (by decide),
      encCoords_get_ne p "line3" (by decide) (by decide),
      encDrop_get_ne p "line3" (by decide) (by decide) (by decide)
        (by decide)]
    rfl
  · rw [hkeys "line4" (by decide),
      encCoords_get_ne p "line4" (by decide) (by decide),
      encDrop_get_ne p "line4" (by decide) (by decide) (by decide)
        (by decide)]
    rfl
  · rw [hkeys "attribution" (by decide),
      encCoords_get_ne p "attribution" (by decide) (by decide),
      encDrop_get_ne p "attribution" (by decide) (by decide) (by decide)
        (by decide)]
    rfl

/-- Witness for the amended C6 on `mixedPOI`: truthy `alt` kept, falsy
`transform` dropped, set `line2` kept, unset `imageURL` kept as
`None`. -/
theorem C6_amended_witness :
    mixedPOI.to_dict.map (fun d => dictGet d "alt") = .ok (some (.int 5))
    ∧ mixedPOI.to_dict.map (fun d => dictGet d "transform") =
      .ok Option.none
    ∧ mixedPOI.to_dict.map (fun d => dictGet d "line2") =
      .ok (some (.str "x"))
    ∧ mixedPOI.to_dict.map (fun d => dictGet d "imageURL") =
      .ok (some .none) := by
  have h := C6_amended mixedPOI rfl
  exact ⟨by rw [h.1]; rfl, by rw [h.2.1]; rfl,
    by rw [h.2.2.2.2.2.1]; rfl, by rw [h.2.2.2.2.1]; rfl⟩

/-! ## Claim C7 -/

/-- C7: a `float`/`Decimal` coordinate is encoded as its value times
1,000,000 truncated toward zero; an integer coordinate passes through
unchanged; `id` is stored as a string even when constructed from a
numeric identifier; and the spec's scenario POI
(`id 7`, `lat 52.370216`, `lon 4.895168`, `title "X"`) encodes exactly
as claimed: `id "7"`, `lat 52370216`, `lon 4895168`, `type 0`,
`dimension 1`, `actions []`, and no `alt`/`transform`/`object`/
`relativeAlt` keys. -/
theorem C7_encoding (p : POI) (hp : p.actions.isDict = false) :
    (∀ q, p.lat = .float q →
      p.to_dict.map (fun d => dictGet d "lat") =
        .ok (some (.int (fixedPoint q))))
    ∧ (∀ n, p.lat = .int n →
      p.to_dict.map (fun d => dictGet d "lat") = .ok (some (.int n)))
    ∧ (∀ q, p.lon = .float q →
      p.to_dict.map (fun d => dictGet d "lon") =
        .ok (some (.int (fixedPoint q))))
    ∧ (∀ n, p.lon = .int n →
      p.to_dict.map (fun d => dictGet d "lon") = .ok (some (.int n)))
    ∧ (∀ idv latv lonv titlev,
        (mkPOI idv latv lonv titlev).id = .str (pyStr idv))
    ∧ ((mkPOI (.int 7) (.float ⟨52370216, 1000000⟩)
        (.float ⟨4895168, 1000000⟩) (.str "X")).to_dict =
      .ok [("id", .str "7"), ("lat", .int 52370216),
           ("lon", .int 4895168), ("title", .str "X"),
           ("imageURL", .none), ("line2", .none), ("line3", .none),
           ("line4", .none), ("type", .int 0), ("attribution", .none),
           ("dimension", .int 1), ("actions", .list [])]) := by
  obtain ⟨d, hd, hkeys⟩ := to_dict_shape p hp
  refine ⟨?_, ?_, ?_, ?_, fun idv latv lonv titlev => rfl, rfl⟩
  · intro q hq
    rw [hd]; simp only [Except.map]
    rw [hkeys "lat" (by decide), encCoords_get_lat, hq]
  · intro n hn
    rw [hd]; simp only [Except.map]
    rw [hkeys "lat" (by decide), encCoords_get_lat, hn]
  · intro q hq
    rw [hd]; simp only [Except.map]
    rw [hkeys "lon" (by decide), encCoords_get_lon, hq]
  · intro n hn
    rw [hd]; simp only [Except.map]
    rw [hkeys "lon" (by decide), encCoords_get_lon, hn]

/-- Witness for C7 at the scenario POI: the fixed-point conversions
evaluate to 52370216 and 4895168. -/
theorem C7_encoding_witness :
    (mkPOI (.int 7) (.float ⟨52370216, 1000000⟩)
      (.float ⟨4895168, 1000000⟩) (.str "X")).to_dict.map
      (fun d => dictGet d "lat") = .ok (some (.int 52370216))
    ∧ (mkPOI (.int 7) (.float ⟨52370216, 1000000⟩)
      (.float ⟨4895168, 1000000⟩) (.str "X")).to_dict.map
      (fun d => dictGet d "lon") = .ok (some (.int 4895168)) := by
  have h := C7_encoding (mkPOI (.int 7) (.float ⟨52370216, 1000000⟩)
    (.float ⟨4895168, 1000000⟩) (.str "X")) rfl
  refine ⟨?_, ?_⟩
  · rw [h.1 ⟨52370216, 1000000⟩ rfl]; rfl
  · rw [h.2.2.1 ⟨4895168, 1000000⟩ rfl]; rfl

/-! ## Success-path and error-capture dictionary lemmas -/

theorem successBody_get_ne {Item : Type} (v : LayarView Item) (p : Params)
    (r0 : Dict) (hs : List Dict) (key : String)
    (h1 : key ≠ "hotspots") (h2 : key ≠ "radius") :
    dictGet (v.successBody p r0 hs) key = dictGet r0 key := by
  unfold LayarView.successBody
  split <;> simp [dictGet_dictSet, h1, h2]

theorem successBody_get_hotspots {Item : Type} (v : LayarView Item)
    (p : Params) (r0 : Dict) (hs : List Dict) :
    dictGet (v.successBody p r0 hs) "hotspots" =
      some (.list (hs.map PyVal.dict)) := by
  unfold LayarView.successBody
  split <;> simp [dictGet_dictSet]

theorem successBody_get_radius {Item : Type} (v : LayarView Item)
    (p : Params) (r0 : Dict) (hs : List Dict)
    (hr : dictGet r0 "radius" = Option.none) :
    dictGet (v.successBody p r0 hs) "radius" =
      (if p.radius.truthy then Option.none
       else some (.int v.default_radius)) := by
  unfold LayarView.successBody
  by_cases h : p.radius.truthy <;> simp [h, dictGet_dictSet, hr]

theorem captureError_get_ne (r : Dict) (c : Int) (m : String)
    (key : String) (h1 : key ≠ "errorCode") (h2 : key ≠ "errorString") :
    dictGet (captureError r c m) key = dictGet r key := by
  simp [captureError, dictGet_dictSet, h1, h2]

theorem captureError_get_errorCode (r : Dict) (c : Int) (m : String) :
    dictGet (captureError r c m) "errorCode" = some (.int c) := by
  simp [captureError, dictGet_dictSet]

theorem captureError_get_errorString (r : Dict) (c : Int) (m : String) :
    dictGet (captureError r c m) "errorString" = some (.str m) := by
  simp [captureError, dictGet_dictSet]

theorem base_morePages_isSome {Item : Type} (v : LayarView Item)
    (p : Params) (name : String) (r0 : Dict)
    (hr : r0 = defaultResponse name ∨
      ∃ qs : List Item,
        r0 = (paginateBlock v.results_per_page p.page qs
              (defaultResponse name)).1) :
    (dictGet r0 "morePages").isSome = true := by
  rcases hr with rfl | ⟨qs, rfl⟩
  · rfl
  · rw [paginateBlock_morePages _ _ _ _ (defaultResponse_morePages name)]
    rfl

theorem base_nextPageKey_isSome {Item : Type} (v : LayarView Item)
    (p : Params) (name : String) (r0 : Dict)
    (hr : r0 = defaultResponse name ∨
      ∃ qs : List Item,
        r0 = (paginateBlock v.results_per_page p.page qs
              (defaultResponse name)).1) :
    (dictGet r0 "nextPageKey").isSome = true := by
  rcases hr with rfl | ⟨qs, rfl⟩
  · rfl
  · rw [paginateBlock_nextPageKey _ _ _ _
      (defaultResponse_nextPageKey name)]
    split <;> rfl

/-! ## Claim C8 -/

/-- C8 counterexample: the caller supplies `radius=0`, yet the success
response still contains a `radius` field equal to the configured
default (1000) — `if not radius` treats a supplied zero like an absent
radius, so "caller supplies any radius ⇒ no radius field" is false. -/
theorem C8_counterexample :
    (responseBody (fullView.call radiusZeroRequest)).map
      (fun b => dictGet b "radius") = some (some (.int 1000)) := rfl

/-- C8 as amended: on the success path the response contains a `radius`
field (equal to the configured `default_radius`) iff the caller's
radius parameter is falsy — absent, empty, or zero; a truthy (nonzero)
supplied radius yields no `radius` field. -/
theorem C8_amended {Item : Type} (v : LayarView Item) (g : RawGet)
    (p : Params) (r' : Dict)
    (hp : parseParams g = .ok p)
    (ht : v.tryBody p (defaultResponse p.layer_name) = .ok r') :
    v.call g = .response r'
    ∧ dictGet r' "radius" =
      (if p.radius.truthy then Option.none
       else some (.int v.default_radius)) := by
  refine ⟨by simp [LayarView.call, hp, ht], ?_⟩
  obtain ⟨r0, hs, hbase, rfl⟩ := tryBody_ok_inv v p p.layer_name r' ht
  have hr0 : dictGet r0 "radius" = Option.none := by
    rw [base_get_ne v p p.layer_name r0 "radius" (by decide) (by decide)
      hbase]
    rfl
  exact successBody_get_radius v p r0 hs hr0

/-- Witness for the amended C8: with no radius supplied, the success
response carries `radius = 1000`. -/
theorem C8_amended_witness :
    (responseBody (fullView.call okRequest)).map
      (fun b => dictGet b "radius") = some (some (.int 1000)) := by
  have h := C8_amended fullView okRequest okParams
    (fullView.successBody okParams
      (fullView.pageOf okParams (List.range 3) (defaultResponse "foo")).1
      [demoPoiDict 0, demoPoiDict 1, demoPoiDict 2]) rfl rfl
  rw [h.1]
  simp only [responseBody, Option.map]
  rw [h.2]
  rfl

/-! ## Claim C10 -/

/-- C10: whenever the view produces a JSON response body (success or
captured error), that body contains the keys `hotspots`, `layer`,
`errorCode`, `errorString`, `nextPageKey` and `morePages`, and its
`layer` field always equals the caller-supplied `layerName` — including
for an unknown layer, whose error-21 response echoes the unknown name
back. -/
theorem C10_response_keys {Item : Type} (v : LayarView Item) (g : RawGet)
    (p : Params) (b : Dict)
    (hp : parseParams g = .ok p) (hres : v.call g = .response b) :
    (dictGet b "hotspots").isSome = true
    ∧ dictGet b "layer" = some (.str p.layer_name)
    ∧ (dictGet b "errorCode").isSome = true
    ∧ (dictGet b "errorString").isSome = true
    ∧ (dictGet b "nextPageKey").isSome = true
    ∧ (dictGet b "morePages").isSome = true := by
  simp only [LayarView.call, hp] at hres
  cases hout : v.tryBody p (defaultResponse p.layer_name) with
  | ok r =>
    rw [hout] at hres
    cases hres
    obtain ⟨r0, hs, hbase, rfl⟩ := tryBody_ok_inv v p p.layer_name b hout
    refine ⟨?_, ?_, ?_, ?_, ?_, ?_⟩
    · rw [successBody_get_hotspots]; rfl
    · rw [successBody_get_ne _ _ _ _ _ (by decide) (by decide),
        base_get_ne v p p.layer_name r0 "layer" (by decide) (by decide)
          hbase]
      rfl
    · rw [successBody_get_ne _ _ _ _ _ (by decide) (by decide),
        base_get_ne v p p.layer_name r0 "errorCode" (by decide) (by decide)
          hbase]
      rfl
    · rw [successBody_get_ne _ _ _ _ _ (by decide) (by decide),
        base_get_ne v p p.layer_name r0 "errorString" (by decide)
          (by decide) hbase]
      rfl
    · rw [successBody_get_ne _ _ _ _ _ (by decide) (by decide)]
      exact base_nextPageKey_isSome v p p.layer_name r0 hbase
    · rw [successBody_get_ne _ _ _ _ _ (by decide) (by decide)]
      exact base_morePages_isSome v p p.layer_name r0 hbase
  | layarError r c m =>
    rw [hout] at hres
    cases hres
    have hbase := tryBody_layarError_inv v p p.layer_name r c m hout
    refine ⟨?_, ?_, ?_, ?_, ?_, ?_⟩
    · rw [captureError_get_ne _ _ _ _ (by decide) (by decide),
        base_get_ne v p p.layer_name r "hotspots" (by decide) (by decide)
          hbase]
      rfl
    · rw [captureError_get_ne _ _ _ _ (by decide) (by decide),
        base_get_ne v p p.layer_name r "layer" (by decide) (by decide)
          hbase]
      rfl
    · rw [captureError_get_errorCode]; rfl
    · rw [captureError_get_errorString]; rfl
    · rw [captureError_get_ne _ _ _ _ (by decide) (by decide)]
      exact base_nextPageKey_isSome v p p.layer_name r hbase
    · rw [captureError_get_ne _ _ _ _ (by decide) (by decide)]
      exact base_morePages_isSome v p p.layer_name r hbase
  | propagate e =>
    rw [hout] at hres
    cases hres

/-- Witness for C10 on the unknown-layer path: the error-21 body has
all six keys and echoes `"foo"` in its `layer` field. -/
theorem C10_response_keys_witness :
    (dictGet (captureError (defaultResponse "foo") 21 "no such layer: foo")
      "hotspots").isSome = true
    ∧ dictGet (captureError (defaultResponse "foo") 21 "no such layer: foo")
      "layer" = some (.str "foo")
    ∧ (dictGet (captureError (defaultResponse "foo") 21 "no such layer: foo")
      "errorCode").isSome = true
    ∧ (dictGet (captureError (defaultResponse "foo") 21 "no such layer: foo")
      "errorString").isSome = true
    ∧ (dictGet (captureError (defaultResponse "foo") 21 "no such layer: foo")
      "nextPageKey").isSome = true
    ∧ (dictGet (captureError (defaultResponse "foo") 21 "no such layer: foo")
      "morePages").isSome = true :=
  C10_response_keys emptyView okRequest okParams
    (captureError (defaultResponse "foo") 21 "no such layer: foo") rfl rfl

/-! ## Claim C9 -/

/-- C9: at encode time, a list `actions` is passed through unchanged
(order preserved), a dict `actions` raises a `DeprecationWarning`
(signaled, never silently accepted), and any other or absent value
encodes as the empty list. -/
theorem C9_actions (p : POI) :
    (∀ l, p.actions = .list l →
      p.to_dict.map (fun d => dictGet d "actions") = .ok (some (.list l)))
    ∧ (∀ kvs, p.actions = .dict kvs →
      p.to_dict = .error (.deprecationWarning
        "passing a dictionary for actions is deprecated - order will be lost"))
    ∧ (p.actions.isList = false → p.actions.isDict = false →
      p.to_dict.map (fun d => dictGet d "actions") =
        .ok (some (.list []))) := by
  have hact : dictGet p.encCoords "actions" = some p.actions := by
    rw [encCoords_get_ne p "actions" (by decide) (by decide),
      encDrop_get_ne p "actions" (by decide) (by decide) (by decide)
        (by decide)]
    rfl
  refine ⟨?_, ?_, ?_⟩
  · intro l hl
    simp only [POI.to_dict, hl, Except.map]
    rw [hact, hl]
  · intro kvs hk
    simp only [POI.to_dict, hk]
  · intro hl hdct
    cases hact2 : p.actions <;> rw [hact2] at hl hdct <;>
      simp_all [PyVal.isList, PyVal.isDict, POI.to_dict, Except.map,
        dictGet_dictSet]

/-- Witness for C9: a list passes through, a dict raises, `None`
becomes `[]`. -/
theorem C9_actions_witness :
    listActionsPOI.to_dict.map (fun d => dictGet d "actions") =
      .ok (some (.list [.dict [("label", .str "l"), ("uri", .str "u")]]))
    ∧ dictActionsPOI.to_dict = .error (.deprecationWarning
        "passing a dictionary for actions is deprecated - order will be lost")
    ∧ (demoPoi 0).to_dict.map (fun d => dictGet d "actions") =
      .ok (some (.list [])) := by
  refine ⟨?_, ?_, ?_⟩
  · exact (C9_actions listActionsPOI).1 _ rfl
  · exact (C9_actions dictActionsPOI).2.1 _ rfl
  · exact (C9_actions (demoPoi 0)).2.2 rfl rfl

end Layar
